import Mathlib

/-!
Shallow embedding of the better-tool-library repository:
  * `src/btl/feeds/material.py` — the static material catalog (speed tables,
    chipload divisors, power factors),
  * `src/scripts/tooldb-manager.py` — the CLI helpers `select_library` and
    `create_tool`, and the `create library` subcommand branch.

Machining speed tables are dictionaries from operations to `(min, max)`
surface-speed pairs in m/min; a bound of `None` means "not specified".
Dictionaries are embedded as association lists in source order; all numeric
bounds in the source are integers.  Chipload divisors and power factors are
embedded as exact rationals.
-/

/-- Operations of `btl.feeds.const.Operation` used as speed-table keys:
MILLING, SLOTTING and DRILLING appear in every material; TURNING and PARTING
only in commented-out entries. -/
inductive Operation where
  | MILLING
  | SLOTTING
  | DRILLING
  | TURNING
  | PARTING
deriving DecidableEq

/-- One speed-table entry: a (min, max) pair of surface speeds in m/min,
either bound possibly `None`. -/
abbrev SpeedEntry := Option Nat × Option Nat

/-- A speed table: a Python dict literal from operations to entries,
embedded as an association list in source order. -/
abbrev SpeedTable := List (Operation × SpeedEntry)

/-- Dictionary lookup in a speed table (the dict literals have no duplicate
keys, so first match is the dict entry). -/
def lookupSpeed (t : SpeedTable) (op : Operation) : Option SpeedEntry :=
  (t.find? (fun p => p.1 == op)).map (fun p => p.2)

/-- A material record of `material.py`: display name, power factor, and per
tool-material class (HSS / carbide) a chipload divisor and a speed table. -/
structure MaterialData where
  name : String
  power_factor : ℚ
  hss_chipload_divisor : ℚ
  hss_speeds : SpeedTable
  carbide_chipload_divisor : ℚ
  carbide_speeds : SpeedTable
deriving DecidableEq

/-- METRIC_POWER_FACTOR of material.py. -/
def METRIC_POWER_FACTOR : ℚ := 0.04550260618944

/-- Tool-material class selecting divisor and speed table. -/
inductive ToolMaterial where
  | HSS
  | CARBIDE
deriving DecidableEq

/-- Chipload divisor for a tool-material class. -/
def chipload_divisor (m : MaterialData) : ToolMaterial → ℚ
  | .HSS => m.hss_chipload_divisor
  | .CARBIDE => m.carbide_chipload_divisor

/-- Speed table for a tool-material class. -/
def speed_table (m : MaterialData) : ToolMaterial → SpeedTable
  | .HSS => m.hss_speeds
  | .CARBIDE => m.carbide_speeds

/-- Chipload rule noted in material.py: `chipload = DIAMETER/divisor`. -/
def chipload (m : MaterialData) (tm : ToolMaterial) (d : ℚ) : ℚ :=
  d / chipload_divisor m tm

/-- Aluminium6061 of material.py. -/
def Aluminium6061 : MaterialData where
  name := "Aluminium Alloy (e.g. 6061)"
  power_factor := 0.33 * METRIC_POWER_FACTOR
  hss_chipload_divisor := 160
  hss_speeds :=
    [(.MILLING, (some 152, some 182)),
     (.SLOTTING, (none, none)),
     (.DRILLING, (some 106, some 122))]
  carbide_chipload_divisor := 80
  carbide_speeds :=
    [(.MILLING, (some 640, some 865)),
     (.SLOTTING, (some 425, some 575)),
     (.DRILLING, (some 215, some 290))]

/-- Aluminium7075 of material.py. -/
def Aluminium7075 : MaterialData where
  name := "Aluminium Alloy (7075)"
  power_factor := 0.33 * METRIC_POWER_FACTOR
  hss_chipload_divisor := 160
  hss_speeds :=
    [(.MILLING, (some 60, some 300)),
     (.SLOTTING, (none, none)),
     (.DRILLING, (some 106, some 122))]
  carbide_chipload_divisor := 80
  carbide_speeds :=
    [(.MILLING, (some 400, some 545)),
     (.SLOTTING, (some 270, some 360)),
     (.DRILLING, (some 135, some 180))]

/-- CopperAlloy of material.py. -/
def CopperAlloy : MaterialData where
  name := "Copper Alloy"
  power_factor := 0.80 * METRIC_POWER_FACTOR
  hss_chipload_divisor := 160
  hss_speeds :=
    [(.MILLING, (some 60, some 300)),
     (.SLOTTING, (none, none)),
     (.DRILLING, (some 24, some 60))]
  carbide_chipload_divisor := 80
  carbide_speeds :=
    [(.MILLING, (some 280, some 555)),
     (.SLOTTING, (some 185, some 370)),
     (.DRILLING, (some 95, some 185))]

/-- Iron of material.py. -/
def Iron : MaterialData where
  name := "Iron"
  power_factor := 0.85 * METRIC_POWER_FACTOR
  hss_chipload_divisor := 200
  hss_speeds :=
    [(.MILLING, (some 60, some 250)),
     (.SLOTTING, (none, none)),
     (.DRILLING, (some 15, some 30))]
  carbide_chipload_divisor := 100
  carbide_speeds :=
    [(.MILLING, (some 225, some 305)),
     (.SLOTTING, (some 230, some 315)),
     (.DRILLING, (some 190, some 255))]

/-- ToolSteel of material.py. -/
def ToolSteel : MaterialData where
  name := "Tool Steel (640-670N/mm²)"
  power_factor := 1.0 * METRIC_POWER_FACTOR
  hss_chipload_divisor := 250
  hss_speeds :=
    [(.MILLING, (some 60, some 100)),
     (.SLOTTING, (none, none)),
     (.DRILLING, (some 7, some 15))]
  carbide_chipload_divisor := 300
  carbide_speeds :=
    [(.MILLING, (some 95, some 130)),
     (.SLOTTING, (some 90, some 120)),
     (.DRILLING, (some 65, some 85))]

/-- LowCarbonSteel of material.py. -/
def LowCarbonSteel : MaterialData where
  name := "Low Carbon Steel (340-690N/mm²)"
  power_factor := 1.0 * METRIC_POWER_FACTOR
  hss_chipload_divisor := 250
  hss_speeds :=
    [(.MILLING, (some 60, some 100)),
     (.SLOTTING, (none, none)),
     (.DRILLING, (some 6, some 18))]
  carbide_chipload_divisor := 300
  carbide_speeds :=
    [(.MILLING, (some 125, some 170)),
     (.SLOTTING, (some 115, some 155)),
     (.DRILLING, (some 80, some 110))]

/-- Stainless of material.py. -/
def Stainless : MaterialData where
  name := "Stainless Steel"
  power_factor := 0.80 * METRIC_POWER_FACTOR
  hss_chipload_divisor := 200
  hss_speeds :=
    [(.MILLING, (some 60, some 80)),
     (.SLOTTING, (none, none)),
     (.DRILLING, (some 7, some 15))]
  carbide_chipload_divisor := 200
  carbide_speeds :=
    [(.MILLING, (some 100, some 135)),
     (.SLOTTING, (some 95, some 130)),
     (.DRILLING, (some 45, some 60))]

/-- Titanium of material.py. -/
def Titanium : MaterialData where
  name := "Titanium (900-1200N/mm²)"
  power_factor := 0.80 * METRIC_POWER_FACTOR
  hss_chipload_divisor := 200
  hss_speeds :=
    [(.MILLING, (some 5, some 7)),
     (.SLOTTING, (none, none)),
     (.DRILLING, (some 6, some 15))]
  carbide_chipload_divisor := 250
  carbide_speeds :=
    [(.MILLING, (some 45, some 60)),
     (.SLOTTING, (some 50, some 70)),
     (.DRILLING, (some 50, some 70))]

/-- Plastic of material.py. -/
def Plastic : MaterialData where
  name := "Plastic"
  power_factor := 0.20 * METRIC_POWER_FACTOR
  hss_chipload_divisor := 125
  hss_speeds :=
    [(.MILLING, (some 200, some 300)),
     (.SLOTTING, (none, none)),
     (.DRILLING, (some 100, some 300))]
  carbide_chipload_divisor := 40
  carbide_speeds :=
    [(.MILLING, (some 100, some 1000)),
     (.SLOTTING, (none, none)),
     (.DRILLING, (some 100, some 1000))]

/-- Softwood of material.py. -/
def Softwood : MaterialData where
  name := "Wood (soft)"
  power_factor := 0.20 * METRIC_POWER_FACTOR
  hss_chipload_divisor := 100
  hss_speeds :=
    [(.MILLING, (some 100, some 1300)),
     (.SLOTTING, (none, none)),
     (.DRILLING, (some 100, some 1000))]
  carbide_chipload_divisor := 80
  carbide_speeds :=
    [(.MILLING, (some 100, some 1300)),
     (.SLOTTING, (none, none)),
     (.DRILLING, (some 100, some 1300))]

/-- Hardwood of material.py. -/
def Hardwood : MaterialData where
  name := "Hardwood"
  power_factor := 0.30 * METRIC_POWER_FACTOR
  hss_chipload_divisor := 100
  hss_speeds :=
    [(.MILLING, (some 100, some 1300)),
     (.SLOTTING, (none, none)),
     (.DRILLING, (some 100, some 1300))]
  carbide_chipload_divisor := 80
  carbide_speeds :=
    [(.MILLING, (some 100, some 1300)),
     (.SLOTTING, (none, none)),
     (.DRILLING, (some 100, some 1300))]

/-- The material catalog: all classes defined in material.py, in source
order. -/
def materials : List MaterialData :=
  [Aluminium6061, Aluminium7075, CopperAlloy, Iron, ToolSteel,
   LowCarbonSteel, Stainless, Titanium, Plastic, Softwood, Hardwood]

/-- An entry is the "derive from milling" sentinel `(None, None)`. -/
def isSentinel (e : Option SpeedEntry) : Bool :=
  e == some (none, none)

/-- An entry is present with both bounds given. -/
def hasBothBounds (e : Option SpeedEntry) : Bool :=
  match e with
  | some (some _, some _) => true
  | _ => false

/-!
Embedding of `src/scripts/tooldb-manager.py`.  `select_library` reads numbered
selections from standard input; the interactive session is embedded as the
list of lines the user enters.  Python's `sorted(libraries, key=...label)` is
a stable ascending sort comparing strings by code points.
-/

/-- A library as used by `select_library`: only its `label` matters. -/
structure Library where
  label : String
deriving DecidableEq

/-- Lexicographic code-point comparison of character lists, as Python
compares strings (a strict prefix sorts first). -/
def charListLe : List Char → List Char → Bool
  | [], _ => true
  | _ :: _, [] => false
  | a :: as, b :: bs =>
      if a = b then charListLe as bs else decide (a.toNat < b.toNat)

/-- Python string comparison on labels, as a relation for sorting. -/
def libraryLe (a b : Library) : Prop :=
  charListLe a.label.data b.label.data = true

instance : DecidableRel libraryLe := fun a b =>
  instDecidableEqBool (charListLe a.label.data b.label.data) true

/-- Python `sorted(libraries, key=lambda l: l.label)`: a stable ascending
sort by label. -/
def sortLibraries (libraries : List Library) : List Library :=
  List.insertionSort libraryLe libraries

/-- Python `int(s)` on user input: an optional sign followed by decimal
digits, `None` when `int` raises ValueError. -/
def parseDigits (cs : List Char) : Option Nat :=
  if cs ≠ [] ∧ cs.all Char.isDigit then
    some (cs.foldl (fun a c => 10 * a + (c.toNat - 48)) 0)
  else none

/-- Python `int` applied to an input line. -/
def int_py (s : String) : Option Int :=
  match s.data with
  | '-' :: rest => (parseDigits rest).map (fun n => -(n : Int))
  | '+' :: rest => (parseDigits rest).map (fun n => (n : Int))
  | cs => (parseDigits cs).map (fun n => (n : Int))

/-- Python list indexing `xs[i]`: negative indices count from the end;
`none` is an IndexError. -/
def pyGet {α : Type} (xs : List α) (i : Int) : Option α :=
  if 0 ≤ i then xs[i.toNat]?
  else if 0 ≤ i + xs.length then xs[(i + xs.length).toNat]?
  else none

/-- Outcome of the `select_library` input loop. -/
inductive SelectOutcome where
  | returned (lib : Library)
  | indexError
  | noMoreInput
deriving DecidableEq

/-- Python `int(input(...) or 1)`: an empty input line is replaced by the
int 1, any other line goes through `int`; `none` is a ValueError. -/
def parse_selection (s : String) : Option Int :=
  if s = "" then some 1 else int_py s

/-- Python `return libraries[selection-1][1]` on the enumerated list:
an out-of-range index is an uncaught IndexError. -/
def resolve_selection (numbered : List (Nat × Library)) (sel : Int) :
    SelectOutcome :=
  match pyGet numbered (sel - 1) with
  | some nl => .returned nl.2
  | none => .indexError

/-- The `while True` input loop of `select_library`: `selection =
int(input(...) or 1)` (a ValueError re-prompts), then `return
libraries[selection-1][1]` on the enumerated list. -/
def select_loop (numbered : List (Nat × Library)) : List String → SelectOutcome
  | [] => .noMoreInput
  | s :: rest =>
    match parse_selection s with
    | none => select_loop numbered rest
    | some sel => resolve_selection numbered sel

/-- The `select_library` function of tooldb-manager.py: a single library is
returned at once; otherwise the libraries are sorted by label, enumerated
from 1, and the input loop resolves the choice. -/
def select_library (libraries : List Library) (inputs : List String) :
    SelectOutcome :=
  match libraries with
  | [l] => .returned l
  | _ => select_loop (List.enumFrom 1 (sortLibraries libraries)) inputs

/-- The star marking the library labeled Default in the printed menu. -/
def default_star (lib : Library) : String :=
  if lib.label = "Default" then "*" else ""

/-- One printed menu line, Python format string `'{}) {}{}'`. -/
def menu_line (p : Nat × Library) : String :=
  toString p.1 ++ ") " ++ p.2.label ++ default_star p.2

/-- The menu `select_library` prints: one numbered line per library, in
sorted order. -/
def menu_lines (libraries : List Library) : List String :=
  (List.enumFrom 1 (sortLibraries libraries)).map menu_line

/-- The number shown as the prompt default: the number of the (last)
library labeled Default, `None` when there is none. -/
def default_number (libraries : List Library) : Option Nat :=
  (List.enumFrom 1 (sortLibraries libraries)).foldl
    (fun acc p => if p.2.label = "Default" then some p.1 else acc) none

/-!
The feeds-and-speeds engine and the `tooldb` package (`Tool`, `Library`,
`ToolDB`) are imported by the code under verification but are not part of
the sources here; where a claim depends on them they are modelled from the
spec, as marked in the doc comments below.
-/

/-- Modelled from the spec: the SpeedsFeedsEngine spindle-speed conversion
`RPM = surface_speed * 1000 / (π * tool_diameter_mm)` per bound; the engine
implementation is not under src/, only its material data is. -/
noncomputable def spindle_rpm (surface_speed d : ℝ) : ℝ :=
  surface_speed * 1000 / (Real.pi * d)


/-- Modelled from the spec: the ValidationError of `ToolRecord.create`. -/
inductive ValidationError where
  | emptyLabel
  | unknownParameter (key : String)
deriving DecidableEq

/-- A tool record: label, shape identifier, parameter map. -/
structure ToolRecord where
  label : String
  shape : String
  params : List (String × String)
deriving DecidableEq

/-- Modelled from the spec: `ToolRecord.create(label, shape, parameters)`
validates that `label` is non-empty and that every parameter key matches the
shape's declared schema, and fails with `ValidationError` otherwise; the
`Tool` class of the `tooldb` package that tooldb-manager.py instantiates is
not under src/. -/
def ToolRecord.create (label shape : String)
    (parameters : List (String × String)) (schema : List String) :
    Except ValidationError ToolRecord :=
  if label = "" then .error .emptyLabel
  else
    match parameters.find? (fun kv => !schema.contains kv.1) with
    | some kv => .error (.unknownParameter kv.1)
    | none => .ok ⟨label, shape, parameters⟩

/-- A shape property as yielded by `get_properties_from_shape`: the tuple
(group, propname, value, unit, enum), with the default value and the allowed
values as strings. -/
structure ShapeProperty where
  group : String
  propname : String
  value : String
  unit : String
  enum : List String
deriving DecidableEq

/-- The inner `while True` loop of create_tool for one property: `val =
input(msg) or value` (empty input takes the default), an out-of-enum value
re-prompts (`if enum and val not in enum: continue`), and the accepted
value is returned with the remaining input; `none` when input runs out. -/
def param_loop (prop : ShapeProperty) : List String → Option (String × List String)
  | [] => none
  | s :: rest =>
    if prop.enum ≠ [] ∧ (if s = "" then prop.value else s) ∉ prop.enum then
      param_loop prop rest
    else some (if s = "" then prop.value else s, rest)

/-- The for-loop of create_tool over the shape properties, storing each
accepted value with `tool.params[propname] = val`: the (property, value)
pairs in loop order, `none` when input runs out. -/
def fill_params :
    List ShapeProperty → List String → Option (List (ShapeProperty × String))
  | [], _ => some []
  | p :: ps, inputs =>
    match param_loop p inputs with
    | none => none
    | some (val, rest) =>
      match fill_params ps rest with
      | none => none
      | some tl => some ((p, val) :: tl)

/-- A process exit carrying the reported message and the exit status. -/
structure CliExit where
  message : String
  status : Nat
deriving DecidableEq

/-- Python argparse `parser.error(msg)`: prints usage and the message to
stderr and exits the process with status 2. -/
def parser_error (msg : String) : CliExit :=
  ⟨msg, 2⟩

/-- The tool store as the CLI sees it: its libraries and tools. -/
structure ToolDBState where
  libraries : List Library
  tools : List ToolRecord
deriving DecidableEq

/-- The `create library` branch of tooldb-manager.py: `tool = Library()`
constructs an object that is never added to the store, then
`parser.error('sorry, not yet implemented')` exits, so the trailing
`db.serialize(serializer)` is never reached and the store is unchanged. -/
def create_library_branch (db : ToolDBState) : ToolDBState × CliExit :=
  (db, parser_error "sorry, not yet implemented")

/-- Sorting does not change the number of libraries. -/
lemma length_sortLibraries (libraries : List Library) :
    (sortLibraries libraries).length = libraries.length :=
  List.length_insertionSort libraryLe libraries

/-- With two or more libraries, `select_library` runs the input loop over
the enumerated sorted list. -/
lemma select_library_eq_loop (libraries : List Library)
    (h : 2 ≤ libraries.length) (inputs : List String) :
    select_library libraries inputs
      = select_loop (List.enumFrom 1 (sortLibraries libraries)) inputs := by
  cases libraries with
  | nil => simp at h
  | cons a t =>
    cases t with
    | nil => simp at h
    | cons b t2 => rfl

/-- Python index -1 is the last element. -/
lemma pyGet_neg_one {α : Type} (xs : List α) (h : xs ≠ []) :
    pyGet xs (-1) = xs[xs.length - 1]? := by
  have hpos : 0 < xs.length := List.length_pos.mpr h
  unfold pyGet
  rw [if_neg (by omega), if_pos (by omega)]
  have harith : ((-1 : Int) + xs.length).toNat = xs.length - 1 := by omega
  rw [harith]

/-- The loop on a parsed input line resolves the selection. -/
lemma select_loop_cons_some (numbered : List (Nat × Library)) (s : String)
    (rest : List String) (k : Int) (h : parse_selection s = some k) :
    select_loop numbered (s :: rest) = resolve_selection numbered k := by
  unfold select_loop
  rw [h]

/-- The loop skips an input line that fails int() parsing. -/
lemma select_loop_cons_none (numbered : List (Nat × Library)) (s : String)
    (rest : List String) (h : parse_selection s = none) :
    select_loop numbered (s :: rest) = select_loop numbered rest := by
  conv_lhs => rw [select_loop]
  rw [h]

/-- Resolution when the Python index lookup succeeds. -/
lemma resolve_selection_some (numbered : List (Nat × Library)) (sel : Int)
    (nl : Nat × Library) (h : pyGet numbered (sel - 1) = some nl) :
    resolve_selection numbered sel = SelectOutcome.returned nl.2 := by
  unfold resolve_selection
  rw [h]

/-- Resolution when the Python index lookup is an IndexError. -/
lemma resolve_selection_none (numbered : List (Nat × Library)) (sel : Int)
    (h : pyGet numbered (sel - 1) = none) :
    resolve_selection numbered sel = SelectOutcome.indexError := by
  unfold resolve_selection
  rw [h]

/-- A value the inner loop accepts for an enum-constrained property is a
member of the allowed-values list. -/
lemma param_loop_mem_enum :
    ∀ (inputs : List String) (prop : ShapeProperty) (val : String)
      (rest : List String), param_loop prop inputs = some (val, rest) →
      prop.enum ≠ [] → val ∈ prop.enum := by
  intro inputs
  induction inputs with
  | nil =>
    intro prop val rest h
    exact absurd h (by simp [param_loop])
  | cons s tail ih =>
    intro prop val rest h hne
    unfold param_loop at h
    by_cases hc : prop.enum ≠ [] ∧ (if s = "" then prop.value else s) ∉ prop.enum
    · rw [if_pos hc] at h
      exact ih prop val rest h hne
    · rw [if_neg hc] at h
      injection h with h'
      cases h'
      push_neg at hc
      exact hc hne

/-- C1 counterexample: at Aluminium6061 / CARBIDE / MILLING / 6.0 mm, the
spindle bounds computed by the stated formula are about 33953.1 and 45889.7
RPM, more than 1 RPM away from the claimed approximations 33973 and 45898
(which do not round from the formula's values). -/
theorem C1_recommendation_counterexample :
    |spindle_rpm 640 6 - 33973| > 1 ∧ |spindle_rpm 865 6 - 45898| > 1 := by
  have hpi1 := Real.pi_gt_d6
  have hpi2 := Real.pi_lt_d6
  have hpos : (0 : ℝ) < Real.pi * 6 := by positivity
  have h640 : spindle_rpm 640 6 < 33954 := by
    unfold spindle_rpm
    rw [div_lt_iff₀ hpos]
    nlinarith
  have h865 : spindle_rpm 865 6 < 45891 := by
    unfold spindle_rpm
    rw [div_lt_iff₀ hpos]
    nlinarith
  constructor
  · calc (1 : ℝ) < -(spindle_rpm 640 6 - 33973) := by linarith
    _ ≤ |spindle_rpm 640 6 - 33973| := neg_le_abs _
  · calc (1 : ℝ) < -(spindle_rpm 865 6 - 45898) := by linarith
    _ ≤ |spindle_rpm 865 6 - 45898| := neg_le_abs _

/-- C1 amended: at Aluminium6061 / CARBIDE / MILLING / 6.0 mm the chipload
is 6/80 = 0.075 mm, the surface speed range is (640, 865) m/min, and the
spindle bounds `speed*1000/(π*6.0)` are approximately (33953, 45890) RPM
(within 1 RPM of those integers). -/
theorem C1_recommendation_amended :
    chipload Aluminium6061 ToolMaterial.CARBIDE 6 = 6 / 80 ∧
    chipload Aluminium6061 ToolMaterial.CARBIDE 6 = 0.075 ∧
    lookupSpeed Aluminium6061.carbide_speeds Operation.MILLING
      = some (some 640, some 865) ∧
    spindle_rpm 640 6 = 640 * 1000 / (Real.pi * 6) ∧
    spindle_rpm 865 6 = 865 * 1000 / (Real.pi * 6) ∧
    |spindle_rpm 640 6 - 33953| < 1 ∧ |spindle_rpm 865 6 - 45890| < 1 := by
  have hpi1 := Real.pi_gt_d6
  have hpi2 := Real.pi_lt_d6
  have hpos : (0 : ℝ) < Real.pi * 6 := by positivity
  have h640u : spindle_rpm 640 6 < 33954 := by
    unfold spindle_rpm
    rw [div_lt_iff₀ hpos]
    nlinarith
  have h640l : (33952 : ℝ) < spindle_rpm 640 6 := by
    unfold spindle_rpm
    rw [lt_div_iff₀ hpos]
    nlinarith
  have h865u : spindle_rpm 865 6 < 45891 := by
    unfold spindle_rpm
    rw [div_lt_iff₀ hpos]
    nlinarith
  have h865l : (45889 : ℝ) < spindle_rpm 865 6 := by
    unfold spindle_rpm
    rw [lt_div_iff₀ hpos]
    nlinarith
  refine ⟨rfl, ?_, by decide, rfl, rfl, ?_, ?_⟩
  · norm_num [chipload, chipload_divisor, Aluminium6061]
  · exact abs_lt.mpr ⟨by linarith, by linarith⟩
  · exact abs_lt.mpr ⟨by linarith, by linarith⟩

/-- C2 counterexample: the catalog violates "SLOTTING is always the sentinel
for both tool-material classes": Aluminium6061 is in the catalog, and its
carbide table gives SLOTTING an explicit range (425, 575), not (None, None). -/
theorem C2_slotting_sentinel_counterexample :
    Aluminium6061 ∈ materials ∧
      lookupSpeed Aluminium6061.carbide_speeds Operation.SLOTTING
        = some (some 425, some 575) ∧
      ¬ isSentinel (lookupSpeed Aluminium6061.carbide_speeds Operation.SLOTTING)
        = true := by
  refine ⟨by simp [materials], by decide, by decide⟩

/-- C2 amended: for every material the HSS table marks SLOTTING with the
sentinel (None, None); in the carbide table SLOTTING is the sentinel exactly
for Plastic, Softwood and Hardwood, and an explicit range in the other eight
materials. -/
theorem C2_slotting_sentinel_amended :
    ∀ m ∈ materials,
      isSentinel (lookupSpeed m.hss_speeds Operation.SLOTTING) = true ∧
      (isSentinel (lookupSpeed m.carbide_speeds Operation.SLOTTING) = true ↔
        m.name ∈ ["Plastic", "Wood (soft)", "Hardwood"]) := by
  intro m hm
  fin_cases hm <;> refine ⟨by decide, by decide⟩

/-- C2 amended witness at Aluminium6061. -/
theorem C2_slotting_sentinel_amended_witness :
    Aluminium6061 ∈ materials ∧
      (isSentinel (lookupSpeed Aluminium6061.hss_speeds Operation.SLOTTING)
          = true ∧
        (isSentinel (lookupSpeed Aluminium6061.carbide_speeds Operation.SLOTTING)
            = true ↔
          Aluminium6061.name ∈ ["Plastic", "Wood (soft)", "Hardwood"])) :=
  ⟨by simp [materials],
    C2_slotting_sentinel_amended Aluminium6061 (by simp [materials])⟩

/-- C3: for every material in the catalog, both tool-material classes and
every positive diameter, chipload is diameter divided by the class divisor
and is exactly proportional: chipload(2d) = 2 * chipload(d). -/
theorem C3_chipload_proportional :
    ∀ m ∈ materials, ∀ (tm : ToolMaterial) (d : ℚ), 0 < d →
      chipload m tm d = d / chipload_divisor m tm ∧
      chipload m tm (2 * d) = 2 * chipload m tm d := by
  intro m _ tm d _
  exact ⟨rfl, mul_div_assoc 2 d (chipload_divisor m tm)⟩

/-- C3 witness at Aluminium6061, carbide, d = 6. -/
theorem C3_chipload_proportional_witness :
    Aluminium6061 ∈ materials ∧ (0 : ℚ) < 6 ∧
      (chipload Aluminium6061 ToolMaterial.CARBIDE 6
          = 6 / chipload_divisor Aluminium6061 ToolMaterial.CARBIDE ∧
        chipload Aluminium6061 ToolMaterial.CARBIDE (2 * 6)
          = 2 * chipload Aluminium6061 ToolMaterial.CARBIDE 6) :=
  ⟨by simp [materials], by norm_num,
    C3_chipload_proportional Aluminium6061 (by simp [materials])
      ToolMaterial.CARBIDE 6 (by norm_num)⟩

/-- C4: every material in the catalog has a MILLING entry with both bounds
present, in the HSS table and in the carbide table. -/
theorem C4_milling_both_bounds :
    ∀ m ∈ materials,
      hasBothBounds (lookupSpeed m.hss_speeds Operation.MILLING) = true ∧
      hasBothBounds (lookupSpeed m.carbide_speeds Operation.MILLING) = true := by
  intro m hm
  fin_cases hm <;> exact ⟨by decide, by decide⟩

/-- C4 witness at Aluminium6061. -/
theorem C4_milling_both_bounds_witness :
    Aluminium6061 ∈ materials ∧
      (hasBothBounds (lookupSpeed Aluminium6061.hss_speeds Operation.MILLING)
          = true ∧
        hasBothBounds (lookupSpeed Aluminium6061.carbide_speeds Operation.MILLING)
          = true) :=
  ⟨by simp [materials],
    C4_milling_both_bounds Aluminium6061 (by simp [materials])⟩

/-- C5 counterexample: with the libraries labeled Default and Shop B, the
menu lists Default (starred) as 1 and Shop B as 2 — not Shop B as 1 — and
entering the index 2 returns Shop B, not Default. -/
theorem C5_select_library_scenario_counterexample :
    menu_lines [⟨"Default"⟩, ⟨"Shop B"⟩] = ["1) Default*", "2) Shop B"] ∧
    menu_lines [⟨"Default"⟩, ⟨"Shop B"⟩] ≠ ["1) Shop B", "2) Default*"] ∧
    select_library [⟨"Default"⟩, ⟨"Shop B"⟩] ["2"]
      = SelectOutcome.returned ⟨"Shop B"⟩ ∧
    select_library [⟨"Default"⟩, ⟨"Shop B"⟩] ["2"]
      ≠ SelectOutcome.returned ⟨"Default"⟩ := by
  refine ⟨by decide, by decide, by decide, by decide⟩

/-- C5 amended: sorted by label puts Default first, so the menu presents
Default (marked with an asterisk) as number 1 and Shop B as number 2;
entering 2 returns Shop B and entering 1 returns Default; the prompt
pre-selection number shown is 1, the number of Default. -/
theorem C5_select_library_scenario_amended :
    menu_lines [⟨"Default"⟩, ⟨"Shop B"⟩] = ["1) Default*", "2) Shop B"] ∧
    select_library [⟨"Default"⟩, ⟨"Shop B"⟩] ["2"]
      = SelectOutcome.returned ⟨"Shop B"⟩ ∧
    select_library [⟨"Default"⟩, ⟨"Shop B"⟩] ["1"]
      = SelectOutcome.returned ⟨"Default"⟩ ∧
    default_number [⟨"Default"⟩, ⟨"Shop B"⟩] = some 1 := by
  refine ⟨by decide, by decide, by decide, by decide⟩

/-- C6 counterexample: the list [Default, Alpha] has two libraries and
contains Default, yet entering empty input returns Alpha (int('' or 1)
selects number 1, the alphabetically first library), not Default. -/
theorem C6_default_preselect_counterexample :
    (⟨"Default"⟩ : Library) ∈ ([⟨"Default"⟩, ⟨"Alpha"⟩] : List Library) ∧
    2 ≤ ([⟨"Default"⟩, ⟨"Alpha"⟩] : List Library).length ∧
    select_library [⟨"Default"⟩, ⟨"Alpha"⟩] [""]
      = SelectOutcome.returned ⟨"Alpha"⟩ ∧
    select_library [⟨"Default"⟩, ⟨"Alpha"⟩] [""]
      ≠ SelectOutcome.returned ⟨"Default"⟩ ∧
    default_number [⟨"Default"⟩, ⟨"Alpha"⟩] = some 2 := by
  refine ⟨by decide, by decide, by decide, by decide, by decide⟩

/-- C6 amended: with two or more libraries, empty input always selects
number 1, i.e. returns the first library in sorted-by-label order; the
number of the Default library is only displayed in the prompt, so empty
input returns Default exactly when Default sorts first. -/
theorem C6_default_preselect_amended (libraries : List Library)
    (h2 : 2 ≤ libraries.length) :
    ∀ (rest : List String) (l : Library),
      (sortLibraries libraries).head? = some l →
      select_library libraries ("" :: rest) = SelectOutcome.returned l := by
  intro rest l hl
  rw [select_library_eq_loop libraries h2,
    select_loop_cons_some _ _ _ 1 (by decide)]
  have hpy : pyGet (List.enumFrom 1 (sortLibraries libraries)) (1 - 1)
      = some (1 + 0, l) := by
    have hm : (1 : Int) - 1 = 0 := by norm_num
    have h0 : pyGet (List.enumFrom 1 (sortLibraries libraries)) 0
        = (List.enumFrom 1 (sortLibraries libraries))[0]? := by
      unfold pyGet
      norm_num
    rw [hm, h0, List.getElem?_enumFrom, ← List.head?_eq_getElem?, hl]
    rfl
  rw [resolve_selection_some _ _ _ hpy]

/-- C6 amended witness: at [Default, Alpha], empty input returns Alpha, the
head of the sorted list. -/
theorem C6_default_preselect_amended_witness :
    2 ≤ ([⟨"Default"⟩, ⟨"Alpha"⟩] : List Library).length ∧
    (sortLibraries [⟨"Default"⟩, ⟨"Alpha"⟩]).head? = some ⟨"Alpha"⟩ ∧
    select_library [⟨"Default"⟩, ⟨"Alpha"⟩] [""]
      = SelectOutcome.returned ⟨"Alpha"⟩ :=
  ⟨by decide, by decide,
    C6_default_preselect_amended [⟨"Default"⟩, ⟨"Alpha"⟩] (by decide) []
      ⟨"Alpha"⟩ (by decide)⟩

/-- C10: with two or more libraries the entered index is not range-checked:
0 wraps to the last library of the sorted list (Python index -1), any
integer above the library count hits an IndexError, and only input that
fails int() parsing is re-prompted. -/
theorem C10_unchecked_selection_index (libraries : List Library)
    (h2 : 2 ≤ libraries.length) :
    (∀ (rest : List String) (l : Library),
        (sortLibraries libraries).getLast? = some l →
        select_library libraries ("0" :: rest) = SelectOutcome.returned l) ∧
    (∀ (s : String) (k : Int) (rest : List String), int_py s = some k →
        (libraries.length : Int) < k →
        select_library libraries (s :: rest) = SelectOutcome.indexError) ∧
    (∀ (s : String) (rest : List String), s ≠ "" → int_py s = none →
        select_library libraries (s :: rest) = select_library libraries rest) := by
  refine ⟨?_, ?_, ?_⟩
  · intro rest l hl
    rw [select_library_eq_loop libraries h2,
      select_loop_cons_some _ _ _ 0 (by decide)]
    have hne : List.enumFrom 1 (sortLibraries libraries) ≠ [] := by
      apply List.length_pos.mp
      rw [List.enumFrom_length, length_sortLibraries]
      omega
    have hpy : pyGet (List.enumFrom 1 (sortLibraries libraries)) (0 - 1)
        = some (1 + ((sortLibraries libraries).length - 1), l) := by
      have hm1 : (0 : Int) - 1 = -1 := by norm_num
      rw [hm1, pyGet_neg_one _ hne, List.enumFrom_length,
        List.getElem?_enumFrom, ← List.getLast?_eq_getElem?, hl]
      rfl
    rw [resolve_selection_some _ _ _ hpy]
  · intro s k rest hk hgt
    have hs : s ≠ "" := by
      intro he
      rw [he] at hk
      rw [show int_py "" = none from by decide] at hk
      exact Option.noConfusion hk
    have hparse : parse_selection s = some k := by
      unfold parse_selection
      rw [if_neg hs, hk]
    rw [select_library_eq_loop libraries h2,
      select_loop_cons_some _ _ _ k hparse]
    apply resolve_selection_none
    unfold pyGet
    rw [if_pos (by omega)]
    apply List.getElem?_eq_none
    rw [List.enumFrom_length, length_sortLibraries]
    omega
  · intro s rest hs hnone
    have hparse : parse_selection s = none := by
      unfold parse_selection
      rw [if_neg hs, hnone]
    rw [select_library_eq_loop libraries h2, select_library_eq_loop libraries h2,
      select_loop_cons_none _ _ _ hparse]

/-- C10 witness: at [Default, Alpha], entering 0 returns Default (the
alphabetically last library), entering 5 is an IndexError, and the
non-integer input abc is skipped. -/
theorem C10_unchecked_selection_index_witness :
    2 ≤ ([⟨"Default"⟩, ⟨"Alpha"⟩] : List Library).length ∧
    (sortLibraries [⟨"Default"⟩, ⟨"Alpha"⟩]).getLast? = some ⟨"Default"⟩ ∧
    select_library [⟨"Default"⟩, ⟨"Alpha"⟩] ["0"]
      = SelectOutcome.returned ⟨"Default"⟩ ∧
    int_py "5" = some 5 ∧
    select_library [⟨"Default"⟩, ⟨"Alpha"⟩] ["5"] = SelectOutcome.indexError ∧
    int_py "abc" = none ∧
    select_library [⟨"Default"⟩, ⟨"Alpha"⟩] ["abc", "1"]
      = select_library [⟨"Default"⟩, ⟨"Alpha"⟩] ["1"] :=
  ⟨by decide, by decide,
    (C10_unchecked_selection_index [⟨"Default"⟩, ⟨"Alpha"⟩] (by decide)).1 []
      ⟨"Default"⟩ (by decide),
    by decide,
    (C10_unchecked_selection_index [⟨"Default"⟩, ⟨"Alpha"⟩] (by decide)).2.1
      "5" 5 [] (by decide) (by decide),
    by decide,
    (C10_unchecked_selection_index [⟨"Default"⟩, ⟨"Alpha"⟩] (by decide)).2.2
      "abc" ["1"] (by decide) (by decide)⟩

/-- C7: tool creation with an empty label always fails with ValidationError
and never produces a tool record, whatever the shape, parameters and
schema. -/
theorem C7_empty_label_rejected (shape : String)
    (parameters : List (String × String)) (schema : List String) :
    ToolRecord.create "" shape parameters schema
        = Except.error ValidationError.emptyLabel ∧
    ∀ t : ToolRecord,
      ToolRecord.create "" shape parameters schema ≠ Except.ok t := by
  constructor
  · unfold ToolRecord.create
    rw [if_pos rfl]
  · intro t h
    unfold ToolRecord.create at h
    rw [if_pos rfl] at h
    exact Except.noConfusion h

/-- C8: whenever the create_tool parameter loop completes, every stored
(property, value) pair with a non-empty allowed-values list has its value in
that list — the input loop never accepts an out-of-enum value, including an
out-of-enum default. -/
theorem C8_enum_values_validated :
    ∀ (props : List ShapeProperty) (inputs : List String)
      (pvs : List (ShapeProperty × String)),
      fill_params props inputs = some pvs →
      ∀ pv ∈ pvs, pv.1.enum ≠ [] → pv.2 ∈ pv.1.enum := by
  intro props
  induction props with
  | nil =>
    intro inputs pvs h pv hpv
    simp only [fill_params, Option.some.injEq] at h
    subst h
    exact absurd hpv (List.not_mem_nil pv)
  | cons p ps ih =>
    intro inputs pvs h pv hpv hne
    unfold fill_params at h
    cases hq : param_loop p inputs with
    | none =>
      rw [hq] at h
      exact Option.noConfusion h
    | some vr =>
      rw [hq] at h
      obtain ⟨val, rest⟩ := vr
      dsimp only at h
      cases hf : fill_params ps rest with
      | none =>
        rw [hf] at h
        exact Option.noConfusion h
      | some tl =>
        rw [hf] at h
        injection h with h'
        subst h'
        rcases List.mem_cons.mp hpv with h1 | h2
        · subst h1
          exact param_loop_mem_enum inputs p val rest hq hne
        · exact ih rest tl hf pv h2 hne

/-- C8 witness: one property with allowed values [2, 4] and an out-of-enum
default 3; the inputs are an empty line (offering the default, rejected)
then 4, and the stored value 4 is in the allowed list. -/
theorem C8_enum_values_validated_witness :
    fill_params [⟨"Shape", "Flutes", "3", "mm", ["2", "4"]⟩] ["", "4"]
        = some [(⟨"Shape", "Flutes", "3", "mm", ["2", "4"]⟩, "4")] ∧
    (⟨"Shape", "Flutes", "3", "mm", ["2", "4"]⟩, "4")
        ∈ [((⟨"Shape", "Flutes", "3", "mm", ["2", "4"]⟩ : ShapeProperty), "4")] ∧
    (["2", "4"] : List String) ≠ [] ∧
    "4" ∈ (["2", "4"] : List String) :=
  ⟨by decide, by decide, by decide,
    C8_enum_values_validated [⟨"Shape", "Flutes", "3", "mm", ["2", "4"]⟩]
      ["", "4"] [(⟨"Shape", "Flutes", "3", "mm", ["2", "4"]⟩, "4")] (by decide)
      (⟨"Shape", "Flutes", "3", "mm", ["2", "4"]⟩, "4") (by decide) (by decide)⟩

/-- C9: the unimplemented `create library` subcommand always reports the
explicit message "sorry, not yet implemented" and exits with the non-zero
argparse status 2, leaving the store exactly as it was. -/
theorem C9_create_library_unimplemented (db : ToolDBState) :
    (create_library_branch db).2.message = "sorry, not yet implemented" ∧
    (create_library_branch db).2.status = 2 ∧
    (create_library_branch db).2.status ≠ 0 ∧
    (create_library_branch db).1 = db :=
  ⟨rfl, rfl, Nat.succ_ne_zero 1, rfl⟩
